import Mathlib

/-!
Verification development for the aquarion-libtts plugin registry and
settings subsystem.  The definitions below are shallow embeddings of the
Python sources under `src/aquarion/libs/libtts/`:

* `TTSPluginRegistry` embeds `api/_ttsplugins.py`
* `TTSRegistry` embeds `api/_ttsregistry.py`
* `KokoroSettings` embeds `kokoro/settings.py` (with the legacy speed rule
  of `_kokoro/_settings.py` embedded separately)
* `KokoroBackend` embeds `kokoro/_backend.py`

Python exceptions are modelled by an explicit error value carrying the
concrete exception class, the pydantic error location and the message.
Python dicts are modelled as insertion-ordered association lists with the
exact assignment semantics of `d[k] = v`; Python sets of strings are
modelled as duplicate-free lists with membership-checking insert/discard.
-/

namespace AquarionTTS

/-- Concrete Python exception classes raised by the embedded code.
`validationError` stands for `pydantic_core.ValidationError`, which in
Python subclasses `ValueError`. -/
inductive PyExc
  | keyError
  | valueError
  | typeError
  | runtimeError
  | validationError
deriving DecidableEq, Repr

/-- Whether the exception class is `ValueError` or one of its subclasses.
In Python, `pydantic_core.ValidationError` subclasses `ValueError`. -/
def PyExc.isValueError : PyExc → Bool
  | .valueError => true
  | .validationError => true
  | _ => false

/-- Whether the exception class is `KeyError` or one of its subclasses. -/
def PyExc.isKeyError : PyExc → Bool
  | .keyError => true
  | _ => false

/-- Whether the exception class is `RuntimeError` or one of its subclasses. -/
def PyExc.isRuntimeError : PyExc → Bool
  | .runtimeError => true
  | _ => false

/-- A raised Python exception: its class, the pydantic error location
(field names; empty for non-pydantic errors) and the human-readable
message. -/
structure PyError where
  cls : PyExc
  loc : List String
  msg : String
deriving DecidableEq, Repr

/-- An error mentions a name when the name is a pydantic error location or
a substring of the message (as `pytest.raises(..., match=...)` checks
against the rendered exception text, which includes the location). -/
def PyError.mentions (e : PyError) (s : String) : Bool :=
  e.loc.contains s || decide (List.IsInfix s.data e.msg.data)

/-! ### Python dict and set models -/

/-- Python `d[k] = v` on an insertion-ordered dict: replace the value at an
existing key in place, otherwise append the new binding. -/
def dictInsert {α : Type} : List (String × α) → String → α → List (String × α)
  | [], k, v => [(k, v)]
  | (k', v') :: rest, k, v =>
      if k' = k then (k, v) :: rest else (k', v') :: dictInsert rest k v

/-- Python `d.get(k)` / `d[k]` lookup. -/
def dictGet? {α : Type} : List (String × α) → String → Option α
  | [], _ => none
  | (k', v') :: rest, k => if k' = k then some v' else dictGet? rest k

/-- Python `k in d`. -/
def dictContains {α : Type} (d : List (String × α)) (k : String) : Bool :=
  (dictGet? d k).isSome

/-- Python `s.add(x)` on a set of strings (duplicate-free list model). -/
def setInsert (l : List String) (x : String) : List String :=
  if x ∈ l then l else l ++ [x]

/-- Python `s.discard(x)` on a set of strings. -/
def setDiscard (l : List String) (x : String) : List String :=
  l.filter (fun y => y != x)

/-! ### `api/_ttsplugins.py`: `ITTSPlugin` and `TTSPluginRegistry` -/

/-- A TTS plugin as stored by the registry: its `id` property plus an
opaque payload standing for the rest of the plugin object, so two distinct
plugin instances with the same id can be told apart. -/
structure ITTSPlugin where
  id : String
  payload : Nat
deriving DecidableEq, Repr

/-- `TTSPluginRegistry.__init__`: the id-to-plugin dict `_plugins` and the
enabled-id set `_enabled_plugins`. -/
structure TTSPluginRegistry where
  plugins : List (String × ITTSPlugin)
  enabled_plugins : List String
deriving DecidableEq, Repr

/-- The empty registry created by `TTSPluginRegistry()`. -/
def TTSPluginRegistry.empty : TTSPluginRegistry := ⟨[], []⟩

/-- The storing loop of `TTSPluginRegistry.load_plugins`: for each
discovered plugin in discovery order, `self._plugins[plugin.id] = plugin`.
The enabled set is not touched. -/
def TTSPluginRegistry.storePlugins (reg : TTSPluginRegistry)
    (discovered : List ITTSPlugin) : TTSPluginRegistry :=
  discovered.foldl
    (fun r p => { r with plugins := dictInsert r.plugins p.id p }) reg

/-- `TTSPluginRegistry.load_plugins` after hook discovery returned the
given plugin list: raise `RuntimeError` when no plugins were found,
otherwise run the storing loop. -/
def TTSPluginRegistry.load_plugins (reg : TTSPluginRegistry)
    (discovered : List ITTSPlugin) : Except PyError TTSPluginRegistry :=
  if discovered.isEmpty then
    .error ⟨.runtimeError, [],
      "No TTS plugins were found.  Please check your aquarion-libtts " ++
      "installation as this should not be possible."⟩
  else
    .ok (reg.storePlugins discovered)

/-- The `ValueError` raised by `TTSPluginRegistry._raise_plugin_not_found`. -/
def pluginNotFound (plugin_id : String) : PyError :=
  ⟨.valueError, [], "TTS plugin not found: " ++ plugin_id⟩

/-- `TTSPluginRegistry.get_plugin`: exact dict lookup, `ValueError` when
absent.  The method never mutates the registry, so the post-state is the
input state. -/
def TTSPluginRegistry.get_plugin (reg : TTSPluginRegistry) (id_ : String) :
    Except PyError ITTSPlugin × TTSPluginRegistry :=
  match dictGet? reg.plugins id_ with
  | some p => (.ok p, reg)
  | none => (.error (pluginNotFound id_), reg)

/-- `TTSPluginRegistry.is_enabled`: membership in the enabled set. -/
def TTSPluginRegistry.is_enabled (reg : TTSPluginRegistry)
    (plugin_id : String) : Bool :=
  reg.enabled_plugins.contains plugin_id

/-- `TTSPluginRegistry.enable`: raise `ValueError` when the id is unknown
(leaving the state untouched), otherwise add the id to the enabled set. -/
def TTSPluginRegistry.enable (reg : TTSPluginRegistry) (plugin_id : String) :
    Except PyError Unit × TTSPluginRegistry :=
  if dictContains reg.plugins plugin_id then
    (.ok (), { reg with enabled_plugins := setInsert reg.enabled_plugins plugin_id })
  else
    (.error (pluginNotFound plugin_id), reg)

/-- `TTSPluginRegistry.disable`: raise `ValueError` when the id is unknown
(leaving the state untouched), otherwise discard the id from the enabled
set. -/
def TTSPluginRegistry.disable (reg : TTSPluginRegistry) (plugin_id : String) :
    Except PyError Unit × TTSPluginRegistry :=
  if dictContains reg.plugins plugin_id then
    (.ok (), { reg with enabled_plugins := setDiscard reg.enabled_plugins plugin_id })
  else
    (.error (pluginNotFound plugin_id), reg)

/-- The first plugin in discovery order carrying the given id (what the
spec sentence for `load_plugins` promises the map keeps). -/
def firstWithId (l : List ITTSPlugin) (k : String) : Option ITTSPlugin :=
  l.find? (fun p => p.id == k)

/-- The last plugin in discovery order carrying the given id (what the
storing loop actually keeps). -/
def lastWithId (l : List ITTSPlugin) (k : String) : Option ITTSPlugin :=
  l.reverse.find? (fun p => p.id == k)

/-! ### `api/_ttsregistry.py`: `TTSRegistryRecord` and `TTSRegistry` -/

/-- `TTSRegistryRecord`: a frozen dataclass of a key and three factory
objects.  The factories are opaque values here; only their identity
matters for the registry's equality checks. -/
structure TTSRegistryRecord where
  key : String
  display_name_factory : Nat
  settings_factory : Nat
  backend_factory : Nat
deriving DecidableEq, Repr

/-- `TTSRegistry.__init__`: the key-to-record dict `_records` and the
enabled-key set `_enabled_backends`. -/
structure TTSRegistry where
  records : List (String × TTSRegistryRecord)
  enabled_backends : List String
deriving DecidableEq, Repr

/-- `TTSRegistry.register`: a duplicate key with an identical record is a
silent no-op; a duplicate key with a different record raises `ValueError`;
a fresh key stores the record.  The post-state is returned alongside the
outcome. -/
def TTSRegistry.register (reg : TTSRegistry) (record : TTSRegistryRecord) :
    Except PyError Unit × TTSRegistry :=
  match dictGet? reg.records record.key with
  | some existing_record =>
      if record = existing_record then (.ok (), reg)
      else
        (.error ⟨.valueError, [],
          "Key already in use by another TTS backend: " ++ " [" ++
            toString existing_record.display_name_factory ++ "]"⟩, reg)
  | none =>
      (.ok (), { reg with records := dictInsert reg.records record.key record })

/-! ### JSON values -/

/-- A decimal number `m / 10 ^ e`: the model of JSON numbers and of the
float values the settings code compares against decimal literals such as
`0.1` and `2.0`. -/
structure DecNum where
  m : Int
  e : Nat
deriving DecidableEq, Repr

/-- Value comparison of two decimal numbers by cross-multiplication. -/
def DecNum.le (a b : DecNum) : Bool :=
  a.m * (10 : Int) ^ b.e ≤ b.m * (10 : Int) ^ a.e

/-- A JSON-serializable value as exchanged through `make_settings` /
`to_dict` (nested arrays and objects never occur in Kokoro settings). -/
inductive JValue
  | str (s : String)
  | num (q : DecNum)
  | bool (b : Bool)
  | null
deriving DecidableEq, Repr

/-! ### `babel.Locale.parse` model

`kokoro/settings.py` validates locales through the external `babel`
library.  `babelParse` models `Locale.parse` on the
`language[_script][_territory]` forms, with the `.encoding` and
`@modifier` suffixes of a POSIX locale identifier stripped; identifiers
outside this fragment are conservatively rejected (parse failure), which
only ever sends more inputs to the `Invalid locale` error path. -/

/-- Split a character list on a separator character. -/
def splitChar (sep : Char) : List Char → List (List Char)
  | [] => [[]]
  | c :: rest =>
    match splitChar sep rest with
    | [] => [[c]]
    | h :: t => if c = sep then [] :: h :: t else (c :: h) :: t

/-- A 2-3 letter alphabetic language subtag. -/
def isLangPart (l : List Char) : Bool :=
  (l.length == 2 || l.length == 3) && l.all Char.isAlpha

/-- A 4 letter alphabetic script subtag. -/
def isScriptPart (l : List Char) : Bool :=
  l.length == 4 && l.all Char.isAlpha

/-- A 2 letter alphabetic or 3 digit numeric territory subtag. -/
def isTerritoryPart (l : List Char) : Bool :=
  (l.length == 2 && l.all Char.isAlpha) || (l.length == 3 && l.all Char.isDigit)

/-- Title-case a subtag the way babel normalizes scripts. -/
def titleCaseChars : List Char → List Char
  | [] => []
  | c :: t => c.toUpper :: t.map Char.toLower

/-- A parsed `babel.Locale`: language, optional territory, optional
script (variants and modifiers never reach the settings code). -/
structure BabelLocale where
  language : String
  territory : Option String
  script : Option String
deriving DecidableEq, Repr

/-- `str(locale)` for a parsed babel locale:
`language[_script][_territory]`. -/
def BabelLocale.str (bl : BabelLocale) : String :=
  bl.language
    ++ (match bl.script with | some sc => "_" ++ sc | none => "")
    ++ (match bl.territory with | some t => "_" ++ t | none => "")

/-- Model of `babel.Locale.parse(input, sep=sep)` on the supported
fragment; `none` models the `ValueError` / `UnknownLocaleError` paths. -/
def babelParse (input : String) (sep : Char) : Option BabelLocale :=
  let core :=
    (input.data.takeWhile (fun c => c != '@')).takeWhile (fun c => c != '.')
  match splitChar sep core with
  | [lang] =>
      if isLangPart lang then
        some ⟨String.mk (lang.map Char.toLower), none, none⟩
      else none
  | [lang, p2] =>
      if isLangPart lang then
        if isScriptPart p2 then
          some ⟨String.mk (lang.map Char.toLower), none,
            some (String.mk (titleCaseChars p2))⟩
        else if isTerritoryPart p2 then
          some ⟨String.mk (lang.map Char.toLower),
            some (String.mk (p2.map Char.toUpper)), none⟩
        else none
      else none
  | [lang, p2, p3] =>
      if isLangPart lang then
        if isScriptPart p2 && isTerritoryPart p3 then
          some ⟨String.mk (lang.map Char.toLower),
            some (String.mk (p3.map Char.toUpper)),
            some (String.mk (titleCaseChars p2))⟩
        else none
      else none
  | _ => none

/-! ### `kokoro/settings.py`: `KokoroSettings` -/

/-- The string values of the `KokoroLocales` enum (member names equal
member values). -/
def kokoroLocaleStrings : List String := ["en_US", "en_GB", "fr_FR"]

/-- The string values of the `KokoroVoices` enum. -/
def kokoroVoiceStrings : List String :=
  ["af_heart", "af_bella", "af_nicole", "am_fenrir", "am_michael", "am_puck",
   "bf_emma", "bm_fable", "bm_george", "ff_siwis"]

/-- The string values of the `KokoroDeviceNames` enum. -/
def kokoroDeviceStrings : List String := ["cpu", "cuda"]

/-- `kokoro.pipeline.ALIASES` (external kokoro library) restricted to the
locales this backend supports; `lang_code` only ever queries it at those
keys. -/
def kokoroAliases : List (String × String) :=
  [("en-us", "a"), ("en-gb", "b"), ("fr-fr", "f")]

/-- `locale.lower().replace("_", "-")` as used by `lang_code`. -/
def dashLower (s : String) : String :=
  String.mk (s.data.map (fun c => if c = '_' then '-' else c.toLower))

/-- `KokoroSettings.lang_code`: the Kokoro language code for the current
locale.  Only called on validated (canonical) locales, where the alias
lookup always succeeds. -/
def lang_code (locale : String) : String :=
  (kokoroAliases.lookup (dashLower locale)).getD ""

/-- `KokoroLocales[name]`: enum member lookup by name; names and values
coincide for this enum. -/
def kokoroLocaleGet? (s : String) : Option String :=
  if kokoroLocaleStrings.contains s then some s else none

/-- `KokoroSettings._validate_locale`: pick the separator from the input,
parse with babel, strip the script, then require the result to name a
supported `KokoroLocales` member; return that member's canonical string. -/
def validate_locale (locale : String) : Except PyError String :=
  match babelParse locale (if locale.data.contains '_' then '_' else '-') with
  | none => .error ⟨.valueError, [], "Invalid locale: " ++ locale⟩
  | some valid_locale =>
    match kokoroLocaleGet? (BabelLocale.str { valid_locale with script := none }) with
    | none => .error ⟨.valueError, [], "Unsupported locale: " ++ locale⟩
    | some supported_locale => .ok supported_locale

/-- `KokoroSettings` with validated fields.  Enum-valued fields hold the
enum's string value; paths hold their string form; `speed` holds the
decimal number it was constructed from. -/
structure KokoroSettings where
  locale : String
  voice : String
  speed : DecNum
  device : Option String
  repo_id : String
  model_path : Option String
  config_path : Option String
  voice_path : Option String
deriving DecidableEq, Repr

/-- The known field names of `KokoroSettings`, in declaration order. -/
def kokoroFieldNames : List String :=
  ["locale", "voice", "speed", "device", "repo_id", "model_path",
   "config_path", "voice_path"]

/-- The pydantic `ValidationError` raised when the input mapping holds
keys that are not settings fields (`extra="forbid"`). -/
def extraInputsError (d : List (String × JValue)) : PyError :=
  ⟨.validationError,
    (d.filter (fun kv => !(kokoroFieldNames.contains kv.1))).map Prod.fst,
    "Extra inputs are not permitted"⟩

/-- Field parse/validation for `locale` (default `"en_US"`, validated even
when defaulted since `validate_default=True`).  A `ValueError` raised by
the field validator surfaces as a pydantic `ValidationError` at location
`locale`. -/
def parse_locale (d : List (String × JValue)) : Except PyError String :=
  match (dictGet? d "locale").getD (.str "en_US") with
  | .str s =>
      match validate_locale s with
      | .ok v => .ok v
      | .error e => .error ⟨.validationError, ["locale"], e.msg⟩
  | _ => .error ⟨.validationError, ["locale"], "Input should be a valid string"⟩

/-- Field parse/validation for `voice` (default `af_heart`; the string is
coerced to the `KokoroVoices` enum). -/
def parse_voice (d : List (String × JValue)) : Except PyError String :=
  match (dictGet? d "voice").getD (.str "af_heart") with
  | .str s =>
      if kokoroVoiceStrings.contains s then .ok s
      else .error ⟨.validationError, ["voice"],
        "Input should be a member of KokoroVoices"⟩
  | _ => .error ⟨.validationError, ["voice"], "Input should be a valid string"⟩

/-- The `ge=0.1` bound of the `speed` field. -/
def speedMin : DecNum := ⟨1, 1⟩

/-- The `le=2.0` bound of the `speed` field in `kokoro/settings.py`. -/
def speedMax : DecNum := ⟨2, 0⟩

/-- Field parse/validation for `speed`
(`Field(default=1.0, ge=0.1, le=2.0)`). -/
def parse_speed (d : List (String × JValue)) : Except PyError DecNum :=
  match (dictGet? d "speed").getD (.num ⟨1, 0⟩) with
  | .num q =>
      if DecNum.le speedMin q then
        if DecNum.le q speedMax then .ok q
        else .error ⟨.validationError, ["speed"],
          "Input should be less than or equal to 2"⟩
      else .error ⟨.validationError, ["speed"],
        "Input should be greater than or equal to 0.1"⟩
  | _ => .error ⟨.validationError, ["speed"], "Input should be a valid number"⟩

/-- Field parse/validation for `device`
(`KokoroDeviceNames | None = None`). -/
def parse_device (d : List (String × JValue)) : Except PyError (Option String) :=
  match (dictGet? d "device").getD .null with
  | .null => .ok none
  | .str s =>
      if kokoroDeviceStrings.contains s then .ok (some s)
      else .error ⟨.validationError, ["device"],
        "Input should be a member of KokoroDeviceNames"⟩
  | _ => .error ⟨.validationError, ["device"],
      "Input should be a member of KokoroDeviceNames"⟩

/-- Field parse for `repo_id` (plain string,
default `"hexgrad/Kokoro-82M"`). -/
def parse_repo_id (d : List (String × JValue)) : Except PyError String :=
  match (dictGet? d "repo_id").getD (.str "hexgrad/Kokoro-82M") with
  | .str s => .ok s
  | _ => .error ⟨.validationError, ["repo_id"], "Input should be a valid string"⟩

/-- Field parse/validation for the three `FilePath | None = None` fields;
`fe` is the file-existence oracle pydantic's `FilePath` consults. -/
def parse_path (fe : String → Bool) (d : List (String × JValue))
    (name : String) : Except PyError (Option String) :=
  match (dictGet? d name).getD .null with
  | .null => .ok none
  | .str p =>
      if fe p then .ok (some p)
      else .error ⟨.validationError, [name], "Path does not point to a file"⟩
  | _ => .error ⟨.validationError, [name], "Input is not a valid path"⟩

/-- Construction of `KokoroSettings` from a mapping: reject unknown keys
(`extra="forbid"`), validate every field (defaults included), then run the
`_validate_voice` model validator, which requires the voice's first letter
to equal the locale's Kokoro language code. -/
def KokoroSettings.make (fe : String → Bool) (d : List (String × JValue)) :
    Except PyError KokoroSettings :=
  if d.all (fun kv => kokoroFieldNames.contains kv.1) then do
    let locale ← parse_locale d
    let voice ← parse_voice d
    let speed ← parse_speed d
    let device ← parse_device d
    let repo_id ← parse_repo_id d
    let model_path ← parse_path fe d "model_path"
    let config_path ← parse_path fe d "config_path"
    let voice_path ← parse_path fe d "voice_path"
    if String.mk (voice.data.take 1) = lang_code locale then
      .ok ⟨locale, voice, speed, device, repo_id, model_path, config_path,
        voice_path⟩
    else .error ⟨.validationError, [],
      "Invalid voice for the locale: " ++ locale ++
        ".  Voice should start with " ++ lang_code locale ++ "."⟩
  else .error (extraInputsError d)

/-- `KokoroPlugin.make_settings`: a missing mapping means defaults. -/
def make_settings (fe : String → Bool)
    (from_dict : Option (List (String × JValue))) :
    Except PyError KokoroSettings :=
  KokoroSettings.make fe (from_dict.getD [])

/-- JSON rendering of an optional string (paths, device). -/
def optStrJ : Option String → JValue
  | some s => .str s
  | none => .null

/-- `KokoroSettings.to_dict` (pydantic `dump_python(mode="json")`): every
field keyed by name, enums as their string values, paths as strings,
absent optionals as `null`. -/
def KokoroSettings.to_dict (s : KokoroSettings) : List (String × JValue) :=
  [("locale", .str s.locale), ("voice", .str s.voice), ("speed", .num s.speed),
   ("device", optStrJ s.device), ("repo_id", .str s.repo_id),
   ("model_path", optStrJ s.model_path), ("config_path", optStrJ s.config_path),
   ("voice_path", optStrJ s.voice_path)]

/-- The `speed` rule of the legacy `_kokoro/_settings.py`
(`Field(ge=0.1, le=1.0)`). -/
def legacy_speed_check (q : DecNum) : Except PyError DecNum :=
  if DecNum.le speedMin q then
    if DecNum.le q ⟨1, 0⟩ then .ok q
    else .error ⟨.validationError, ["speed"],
      "Input should be less than or equal to 1"⟩
  else .error ⟨.validationError, ["speed"],
    "Input should be greater than or equal to 0.1"⟩

/-! ### `kokoro/_backend.py`: `KokoroBackend` -/

/-- An `ITTSSettings` argument as received from outside: either this
backend's own concrete `KokoroSettings` or some other plugin's settings
object (the `isinstance` check distinguishes exactly these). -/
inductive ITTSSettingsValue
  | kokoro (s : KokoroSettings)
  | other (tag : Nat)
deriving DecidableEq, Repr

/-- `KokoroBackend` state: the current settings and the optional derived
pipeline resource (`None` iff stopped).  The pipeline is represented by
the settings it was allocated from. -/
structure KokoroBackend where
  settings : KokoroSettings
  pipeline : Option KokoroSettings
deriving DecidableEq, Repr

/-- `KokoroBackend.is_started`: whether the pipeline resource is
allocated. -/
def KokoroBackend.is_started (b : KokoroBackend) : Bool := b.pipeline.isSome

/-- `KokoroBackend.stop`: drop the pipeline (no-op when already
stopped). -/
def KokoroBackend.stop (b : KokoroBackend) : KokoroBackend :=
  { b with pipeline := none }

/-- `KokoroBackend.start`: no-op when started, otherwise allocate the
pipeline from the current settings.  `alloc` is the external
`KPipeline` construction, whose failure (`none`) propagates as an
exception and leaves the backend stopped. -/
def KokoroBackend.start (alloc : KokoroSettings → Option KokoroSettings)
    (b : KokoroBackend) : Except PyError KokoroBackend :=
  if b.is_started then .ok b
  else
    match alloc b.settings with
    | some pl => .ok { b with pipeline := some pl }
    | none => .error ⟨.runtimeError, [], "Pipeline allocation failed"⟩

/-- `KokoroBackend.update_settings`: type-check the new settings, then
stop/swap/restart when started, or just swap when stopped. -/
def KokoroBackend.update_settings (alloc : KokoroSettings → Option KokoroSettings)
    (b : KokoroBackend) (new_settings : ITTSSettingsValue) :
    Except PyError KokoroBackend :=
  match new_settings with
  | .other t =>
      .error ⟨.typeError, [], "Incorrect settings type: [" ++ toString t ++ "]"⟩
  | .kokoro ns =>
      let started_state := b.is_started
      if started_state then
        KokoroBackend.start alloc { b.stop with settings := ns }
      else .ok { b with settings := ns }

/-- `KokoroBackend.convert`, observed as the exhaustion of the returned
iterator: the not-started guard raises `RuntimeError`, otherwise the
external pipeline (`run`) produces the audio chunk list. -/
def KokoroBackend.convert (run : KokoroBackend → String → List (List Nat))
    (b : KokoroBackend) (text : String) : Except PyError (List (List Nat)) :=
  if !b.is_started then
    .error ⟨.runtimeError, [], "Backend is not started"⟩
  else .ok (run b text)

/-! ### Dict and set lemmas -/

theorem dictGet?_dictInsert {α : Type} (d : List (String × α)) (k k' : String)
    (v : α) :
    dictGet? (dictInsert d k v) k' = if k = k' then some v else dictGet? d k' := by
  induction d with
  | nil => simp [dictInsert, dictGet?]
  | cons hd tl ih =>
    obtain ⟨k0, v0⟩ := hd
    by_cases h1 : k0 = k <;> by_cases h2 : k0 = k' <;>
      simp_all [dictInsert, dictGet?]
    rw [if_neg (fun hh : k = k' => h1 hh.symm)]

theorem mem_setInsert_self (l : List String) (x : String) : x ∈ setInsert l x := by
  unfold setInsert
  split
  · assumption
  · simp

theorem setInsert_idem (l : List String) (x : String) :
    setInsert (setInsert l x) x = setInsert l x := by
  have h : x ∈ setInsert l x := mem_setInsert_self l x
  rw [show setInsert (setInsert l x) x =
        if x ∈ setInsert l x then setInsert l x else setInsert l x ++ [x] from rfl,
      if_pos h]

theorem setDiscard_idem (l : List String) (x : String) :
    setDiscard (setDiscard l x) x = setDiscard l x := by
  unfold setDiscard
  rw [List.filter_filter]
  congr 1
  funext y
  rw [Bool.and_self]

theorem storePlugins_cons (reg : TTSPluginRegistry) (p : ITTSPlugin)
    (t : List ITTSPlugin) :
    TTSPluginRegistry.storePlugins reg (p :: t) =
      TTSPluginRegistry.storePlugins
        ⟨dictInsert reg.plugins p.id p, reg.enabled_plugins⟩ t := rfl

theorem storePlugins_lookup (l : List ITTSPlugin) (reg : TTSPluginRegistry)
    (k : String) :
    dictGet? (TTSPluginRegistry.storePlugins reg l).plugins k =
      (lastWithId l k).or (dictGet? reg.plugins k) := by
  induction l generalizing reg with
  | nil => rfl
  | cons p t ih =>
    rw [storePlugins_cons, ih, dictGet?_dictInsert]
    unfold lastWithId
    simp only [List.reverse_cons, List.find?_append]
    cases hf : t.reverse.find? (fun q => q.id == k) with
    | some q => simp [Option.or]
    | none =>
      by_cases hp : p.id = k
      · have hb : (p.id == k) = true := beq_iff_eq.mpr hp
        simp [List.find?, hp, hb, Option.or]
      · have hb : (p.id == k) = false := beq_eq_false_iff_ne.mpr hp
        simp [List.find?, hp, hb, Option.or]

/-! ### Claim C1 -/

/-- C1 counterexample: two discovered plugins with id `a_v1` in discovery
order; after the storing loop of `load_plugins`, the map holds the second
(later) plugin, which differs from the first-discovered one, so the map
does not keep the first plugin. -/
theorem loadPlugins_duplicate_id_keeps_second :
    dictGet? (TTSPluginRegistry.empty.storePlugins
        [⟨"a_v1", 0⟩, ⟨"a_v1", 1⟩]).plugins "a_v1" = some ⟨"a_v1", 1⟩ ∧
    firstWithId [⟨"a_v1", 0⟩, ⟨"a_v1", 1⟩] "a_v1" = some ⟨"a_v1", 0⟩ ∧
    (⟨"a_v1", 1⟩ : ITTSPlugin) ≠ ⟨"a_v1", 0⟩ := by
  refine ⟨rfl, rfl, ?_⟩
  decide

/-- C1 (amended): the storing loop of a single `load_plugins` call is
last-write-wins: after the loop each id maps to the last plugin in
discovery order with that id, and ids not discovered keep their prior
mapping. -/
theorem loadPlugins_last_write_wins (reg : TTSPluginRegistry)
    (discovered : List ITTSPlugin) (k : String) :
    dictGet? (reg.storePlugins discovered).plugins k =
      (lastWithId discovered k).or (dictGet? reg.plugins k) :=
  storePlugins_lookup discovered reg k

/-! ### Claims C7 and C8 -/

/-- C7: for a known plugin id, `enable` succeeds and calling it a second
time succeeds and leaves the registry state (plugin map and enabled set)
exactly as after the first call; likewise for `disable`. -/
theorem enable_disable_idempotent (reg : TTSPluginRegistry) (p : String)
    (h : dictContains reg.plugins p = true) :
    (reg.enable p).1 = .ok () ∧
    (reg.enable p).2.enable p = (.ok (), (reg.enable p).2) ∧
    (reg.disable p).1 = .ok () ∧
    (reg.disable p).2.disable p = (.ok (), (reg.disable p).2) := by
  refine ⟨?_, ?_, ?_, ?_⟩ <;>
    simp [TTSPluginRegistry.enable, TTSPluginRegistry.disable, h,
      setInsert_idem, setDiscard_idem]

/-- C7 witness: repeated `enable` on a one-plugin registry succeeds. -/
theorem enable_disable_idempotent_witness :
    ((⟨[("a_v1", ⟨"a_v1", 0⟩)], []⟩ : TTSPluginRegistry).enable "a_v1").1 =
      .ok () :=
  (enable_disable_idempotent ⟨[("a_v1", ⟨"a_v1", 0⟩)], []⟩ "a_v1"
    (by decide)).1

/-- C8: on an id absent from the plugin map, `enable`, `disable` and
`get_plugin` each raise the `ValueError`-class not-found error and return
the registry state exactly unchanged. -/
theorem unknown_id_error_atomicity (reg : TTSPluginRegistry) (id_ : String)
    (h : dictContains reg.plugins id_ = false) :
    reg.enable id_ = (.error (pluginNotFound id_), reg) ∧
    reg.disable id_ = (.error (pluginNotFound id_), reg) ∧
    reg.get_plugin id_ = (.error (pluginNotFound id_), reg) ∧
    (pluginNotFound id_).cls.isValueError = true := by
  have hnone : dictGet? reg.plugins id_ = none := by
    cases hh : dictGet? reg.plugins id_ with
    | none => rfl
    | some p => simp [dictContains, hh] at h
  refine ⟨?_, ?_, ?_, rfl⟩ <;>
    simp [TTSPluginRegistry.enable, TTSPluginRegistry.disable,
      TTSPluginRegistry.get_plugin, h, hnone]

/-- C8 witness: `enable` on an empty registry raises not-found and leaves
the registry unchanged. -/
theorem unknown_id_error_atomicity_witness :
    TTSPluginRegistry.empty.enable "nonexistent" =
      (.error (pluginNotFound "nonexistent"), TTSPluginRegistry.empty) :=
  (unknown_id_error_atomicity TTSPluginRegistry.empty "nonexistent"
    (by decide)).1

/-! ### Except bind reduction -/

theorem exceptBind_ok {α β : Type} (a : α) (f : α → Except PyError β) :
    (do let x ← (Except.ok a : Except PyError α); f x) = f a := rfl

theorem exceptBind_error {α β : Type} (e : PyError) (f : α → Except PyError β) :
    (do let x ← (Except.error e : Except PyError α); f x) = Except.error e := rfl

/-! ### Kokoro settings parse lemmas -/

theorem kokoroLocaleGet?_some (s v : String) (h : kokoroLocaleGet? s = some v) :
    kokoroLocaleStrings.contains v = true := by
  unfold kokoroLocaleGet? at h
  split at h
  · rename_i hc
    injection h with h'
    rw [← h']
    exact hc
  · exact Option.noConfusion h

theorem validate_locale_ok_mem (x v : String) (h : validate_locale x = .ok v) :
    kokoroLocaleStrings.contains v = true := by
  unfold validate_locale at h
  cases hb : babelParse x (if x.data.contains '_' then '_' else '-') with
  | none => rw [hb] at h; exact Except.noConfusion h
  | some bl =>
    rw [hb] at h
    dsimp only at h
    cases hk : kokoroLocaleGet? (BabelLocale.str { bl with script := none }) with
    | none => rw [hk] at h; exact Except.noConfusion h
    | some k0 =>
      rw [hk] at h
      dsimp only at h
      injection h with h'
      rw [← h']
      exact kokoroLocaleGet?_some _ k0 hk

theorem validate_locale_canonical (v : String)
    (h : kokoroLocaleStrings.contains v = true) : validate_locale v = .ok v := by
  have hv : v = "en_US" ∨ v = "en_GB" ∨ v = "fr_FR" := by
    simpa [kokoroLocaleStrings] using h
  rcases hv with h1 | h1 | h1 <;> rw [h1] <;> rfl

theorem parse_locale_ok (d : List (String × JValue)) (v : String)
    (h : parse_locale d = .ok v) : kokoroLocaleStrings.contains v = true := by
  unfold parse_locale at h
  cases hg : (dictGet? d "locale").getD (.str "en_US") with
  | str s0 =>
    rw [hg] at h
    dsimp only at h
    cases hv : validate_locale s0 with
    | ok v0 =>
      rw [hv] at h
      dsimp only at h
      injection h with h'
      rw [← h']
      exact validate_locale_ok_mem s0 v0 hv
    | error e => rw [hv] at h; exact Except.noConfusion h
  | num q => rw [hg] at h; exact Except.noConfusion h
  | bool b0 => rw [hg] at h; exact Except.noConfusion h
  | null => rw [hg] at h; exact Except.noConfusion h

theorem parse_voice_ok (d : List (String × JValue)) (v : String)
    (h : parse_voice d = .ok v) : kokoroVoiceStrings.contains v = true := by
  unfold parse_voice at h
  cases hg : (dictGet? d "voice").getD (.str "af_heart") with
  | str s0 =>
    rw [hg] at h
    dsimp only at h
    split at h
    · rename_i hc
      injection h with h'
      rw [← h']
      exact hc
    · exact Except.noConfusion h
  | num q => rw [hg] at h; exact Except.noConfusion h
  | bool b0 => rw [hg] at h; exact Except.noConfusion h
  | null => rw [hg] at h; exact Except.noConfusion h

theorem parse_speed_ok (d : List (String × JValue)) (q : DecNum)
    (h : parse_speed d = .ok q) :
    DecNum.le speedMin q = true ∧ DecNum.le q speedMax = true := by
  unfold parse_speed at h
  cases hg : (dictGet? d "speed").getD (.num ⟨1, 0⟩) with
  | num q0 =>
    rw [hg] at h
    dsimp only at h
    split at h
    · rename_i h1
      split at h
      · rename_i h2
        injection h with h'
        rw [← h']
        exact ⟨h1, h2⟩
      · exact Except.noConfusion h
    · exact Except.noConfusion h
  | str s0 => rw [hg] at h; exact Except.noConfusion h
  | bool b0 => rw [hg] at h; exact Except.noConfusion h
  | null => rw [hg] at h; exact Except.noConfusion h

theorem parse_device_ok (d : List (String × JValue)) (dev : Option String)
    (h : parse_device d = .ok dev) :
    ∀ v, dev = some v → kokoroDeviceStrings.contains v = true := by
  intro v hv
  unfold parse_device at h
  cases hg : (dictGet? d "device").getD .null with
  | str s0 =>
    rw [hg] at h
    dsimp only at h
    split at h
    · rename_i hc
      injection h with h'
      rw [← h'] at hv
      injection hv with hv'
      rw [← hv']
      exact hc
    · exact Except.noConfusion h
  | null =>
    rw [hg] at h
    dsimp only at h
    injection h with h'
    rw [← h'] at hv
    exact Option.noConfusion hv
  | num q => rw [hg] at h; exact Except.noConfusion h
  | bool b0 => rw [hg] at h; exact Except.noConfusion h

theorem parse_path_ok (fe : String → Bool) (d : List (String × JValue))
    (name : String) (mp : Option String) (h : parse_path fe d name = .ok mp) :
    ∀ p, mp = some p → fe p = true := by
  intro p hp
  unfold parse_path at h
  cases hg : (dictGet? d name).getD .null with
  | str s0 =>
    rw [hg] at h
    dsimp only at h
    split at h
    · rename_i hc
      injection h with h'
      rw [← h'] at hp
      injection hp with hp'
      rw [← hp']
      exact hc
    · exact Except.noConfusion h
  | null =>
    rw [hg] at h
    dsimp only at h
    injection h with h'
    rw [← h'] at hp
    exact Option.noConfusion hp
  | num q => rw [hg] at h; exact Except.noConfusion h
  | bool b0 => rw [hg] at h; exact Except.noConfusion h

/-! ### Reconstruction lemmas on `to_dict` output -/

theorem parse_locale_to_dict (s : KokoroSettings)
    (h : kokoroLocaleStrings.contains s.locale = true) :
    parse_locale s.to_dict = .ok s.locale := by
  unfold parse_locale
  rw [show (dictGet? s.to_dict "locale").getD (.str "en_US") =
    .str s.locale from rfl]
  dsimp only
  rw [validate_locale_canonical s.locale h]

theorem parse_voice_to_dict (s : KokoroSettings)
    (h : kokoroVoiceStrings.contains s.voice = true) :
    parse_voice s.to_dict = .ok s.voice := by
  unfold parse_voice
  rw [show (dictGet? s.to_dict "voice").getD (.str "af_heart") =
    .str s.voice from rfl]
  dsimp only
  rw [if_pos h]

theorem parse_speed_to_dict (s : KokoroSettings)
    (h1 : DecNum.le speedMin s.speed = true)
    (h2 : DecNum.le s.speed speedMax = true) :
    parse_speed s.to_dict = .ok s.speed := by
  unfold parse_speed
  rw [show (dictGet? s.to_dict "speed").getD (.num ⟨1, 0⟩) =
    .num s.speed from rfl]
  dsimp only
  rw [if_pos h1, if_pos h2]

theorem parse_device_to_dict (s : KokoroSettings)
    (h : ∀ v, s.device = some v → kokoroDeviceStrings.contains v = true) :
    parse_device s.to_dict = .ok s.device := by
  unfold parse_device
  rw [show (dictGet? s.to_dict "device").getD .null = optStrJ s.device from rfl]
  cases hd : s.device with
  | none => rfl
  | some v =>
    dsimp only [optStrJ]
    rw [if_pos (h v hd)]

theorem parse_repo_id_to_dict (s : KokoroSettings) :
    parse_repo_id s.to_dict = .ok s.repo_id := rfl

theorem parse_path_to_dict (fe : String → Bool) (s : KokoroSettings)
    (name : String) (v : Option String)
    (hv : dictGet? s.to_dict name = some (optStrJ v))
    (h : ∀ p, v = some p → fe p = true) :
    parse_path fe s.to_dict name = .ok v := by
  unfold parse_path
  rw [hv]
  cases v with
  | none => rfl
  | some p =>
    dsimp only [optStrJ, Option.getD]
    rw [if_pos (h p rfl)]

/-- Inversion of a successful `KokoroSettings.make`: every field parse
succeeded with the stored value and the voice/locale compatibility check
passed. -/
theorem make_ok_inv (fe : String → Bool) (d : List (String × JValue))
    (s : KokoroSettings) (h : KokoroSettings.make fe d = .ok s) :
    parse_locale d = .ok s.locale ∧ parse_voice d = .ok s.voice ∧
    parse_speed d = .ok s.speed ∧ parse_device d = .ok s.device ∧
    parse_repo_id d = .ok s.repo_id ∧
    parse_path fe d "model_path" = .ok s.model_path ∧
    parse_path fe d "config_path" = .ok s.config_path ∧
    parse_path fe d "voice_path" = .ok s.voice_path ∧
    String.mk (s.voice.data.take 1) = lang_code s.locale := by
  unfold KokoroSettings.make at h
  by_cases hall : (d.all fun kv => kokoroFieldNames.contains kv.1) = true
  · rw [if_pos hall] at h
    cases h1 : parse_locale d with
    | error e =>
      rw [h1] at h
      simp only [exceptBind_error] at h
      exact Except.noConfusion h
    | ok locale =>
    rw [h1] at h
    simp only [exceptBind_ok] at h
    cases h2 : parse_voice d with
    | error e =>
      rw [h2] at h
      simp only [exceptBind_error] at h
      exact Except.noConfusion h
    | ok voice =>
    rw [h2] at h
    simp only [exceptBind_ok] at h
    cases h3 : parse_speed d with
    | error e =>
      rw [h3] at h
      simp only [exceptBind_error] at h
      exact Except.noConfusion h
    | ok speed =>
    rw [h3] at h
    simp only [exceptBind_ok] at h
    cases h4 : parse_device d with
    | error e =>
      rw [h4] at h
      simp only [exceptBind_error] at h
      exact Except.noConfusion h
    | ok device =>
    rw [h4] at h
    simp only [exceptBind_ok] at h
    cases h5 : parse_repo_id d with
    | error e =>
      rw [h5] at h
      simp only [exceptBind_error] at h
      exact Except.noConfusion h
    | ok repo_id =>
    rw [h5] at h
    simp only [exceptBind_ok] at h
    cases h6 : parse_path fe d "model_path" with
    | error e =>
      rw [h6] at h
      simp only [exceptBind_error] at h
      exact Except.noConfusion h
    | ok model_path =>
    rw [h6] at h
    simp only [exceptBind_ok] at h
    cases h7 : parse_path fe d "config_path" with
    | error e =>
      rw [h7] at h
      simp only [exceptBind_error] at h
      exact Except.noConfusion h
    | ok config_path =>
    rw [h7] at h
    simp only [exceptBind_ok] at h
    cases h8 : parse_path fe d "voice_path" with
    | error e =>
      rw [h8] at h
      simp only [exceptBind_error] at h
      exact Except.noConfusion h
    | ok voice_path =>
    rw [h8] at h
    simp only [exceptBind_ok] at h
    split at h
    · rename_i hc
      injection h with h'
      subst h'
      exact ⟨rfl, rfl, rfl, rfl, rfl, rfl, rfl, rfl, hc⟩
    · exact Except.noConfusion h
  · rw [if_neg hall] at h
    exact Except.noConfusion h

/-! ### Claim C5 -/

/-- C5 round-trip law: feeding `to_dict()` of any settings instance built
by `make_settings` back into `make_settings` (same plugin, same
environment) reproduces an equal settings instance. -/
theorem settings_round_trip (fe : String → Bool) (d : List (String × JValue))
    (s : KokoroSettings) (h : KokoroSettings.make fe d = .ok s) :
    KokoroSettings.make fe s.to_dict = .ok s := by
  obtain ⟨h1, h2, h3, h4, h5, h6, h7, h8, hc⟩ := make_ok_inv fe d s h
  have hl := parse_locale_ok d s.locale h1
  have hv := parse_voice_ok d s.voice h2
  have hs := parse_speed_ok d s.speed h3
  have hdv := parse_device_ok d s.device h4
  have hm := parse_path_ok fe d "model_path" s.model_path h6
  have hcf := parse_path_ok fe d "config_path" s.config_path h7
  have hvp := parse_path_ok fe d "voice_path" s.voice_path h8
  unfold KokoroSettings.make
  rw [if_pos (show (s.to_dict.all fun kv =>
    kokoroFieldNames.contains kv.1) = true from rfl)]
  rw [parse_locale_to_dict s hl]
  rw [parse_voice_to_dict s hv]
  rw [parse_speed_to_dict s hs.1 hs.2]
  rw [parse_device_to_dict s hdv]
  rw [parse_repo_id_to_dict s]
  rw [parse_path_to_dict fe s "model_path" s.model_path rfl hm]
  rw [parse_path_to_dict fe s "config_path" s.config_path rfl hcf]
  rw [parse_path_to_dict fe s "voice_path" s.voice_path rfl hvp]
  simp only [exceptBind_ok]
  rw [if_pos hc]

/-- C5 witness: a concrete settings instance round-trips through
`to_dict`. -/
theorem settings_round_trip_witness :
    KokoroSettings.make (fun _ => false)
      (KokoroSettings.to_dict ⟨"fr_FR", "ff_siwis", ⟨15, 1⟩, some "cpu",
        "hexgrad/Kokoro-82M", none, none, none⟩) =
      .ok ⟨"fr_FR", "ff_siwis", ⟨15, 1⟩, some "cpu", "hexgrad/Kokoro-82M",
        none, none, none⟩ :=
  settings_round_trip (fun _ => false)
    [("locale", .str "fr-FR"), ("voice", .str "ff_siwis"),
     ("speed", .num ⟨15, 1⟩), ("device", .str "cpu")] _ rfl

/-! ### Claim C10 -/

/-- C10: every successfully constructed `KokoroSettings` stores the
canonical underscore-separated name of a supported locale enum member;
in particular the hyphenated `en-US` and the encoding-suffixed
`en_US.UTF-8` both store as `en_US`, which differs textually from those
inputs. -/
theorem locale_normalization_invariant :
    (∀ (fe : String → Bool) (d : List (String × JValue)) (s : KokoroSettings),
        KokoroSettings.make fe d = .ok s →
          kokoroLocaleStrings.contains s.locale = true) ∧
    KokoroSettings.make (fun _ => false) [("locale", .str "en-US")] =
      .ok ⟨"en_US", "af_heart", ⟨1, 0⟩, none, "hexgrad/Kokoro-82M", none,
        none, none⟩ ∧
    KokoroSettings.make (fun _ => false) [("locale", .str "en_US.UTF-8")] =
      .ok ⟨"en_US", "af_heart", ⟨1, 0⟩, none, "hexgrad/Kokoro-82M", none,
        none, none⟩ ∧
    ("en-US" ≠ "en_US" ∧ "en_US.UTF-8" ≠ "en_US") := by
  refine ⟨?_, rfl, rfl, by decide⟩
  intro fe d s h
  exact parse_locale_ok d s.locale (make_ok_inv fe d s h).1

/-- C10 witness: the invariant applied to the settings built from the
hyphenated locale `en-US`. -/
theorem locale_normalization_invariant_witness :
    kokoroLocaleStrings.contains
      (⟨"en_US", "af_heart", ⟨1, 0⟩, none, "hexgrad/Kokoro-82M", none, none,
        none⟩ : KokoroSettings).locale = true :=
  locale_normalization_invariant.1 (fun _ => false)
    [("locale", .str "en-US")] _ rfl

/-! ### Claim C2 -/

/-- C2: `TTSRegistry.register` is a silent no-op when the stored record
under the key equals the new record, raises a `ValueError`-class error and
leaves the state unchanged when the stored record differs, and stores the
record when the key is absent. -/
theorem register_idempotence_asymmetry (reg : TTSRegistry)
    (r : TTSRegistryRecord) :
    (dictGet? reg.records r.key = some r → reg.register r = (.ok (), reg)) ∧
    (∀ r', dictGet? reg.records r.key = some r' → r' ≠ r →
      ∃ e, reg.register r = (.error e, reg) ∧ e.cls.isValueError = true) ∧
    (dictGet? reg.records r.key = none →
      reg.register r =
        (.ok (), { reg with records := dictInsert reg.records r.key r })) := by
  refine ⟨?_, ?_, ?_⟩
  · intro h
    simp [TTSRegistry.register, h]
  · intro r' h hne
    have hne' : r ≠ r' := fun hh => hne hh.symm
    have hr : reg.register r =
        (.error ⟨.valueError, [],
          "Key already in use by another TTS backend: " ++ " [" ++
            toString r'.display_name_factory ++ "]"⟩, reg) := by
      simp [TTSRegistry.register, h, hne']
    exact ⟨_, hr, rfl⟩
  · intro h
    simp [TTSRegistry.register, h]

/-- C2 witness: registering a fresh record stores it; re-registering the
identical record is a no-op. -/
theorem register_idempotence_asymmetry_witness :
    (⟨[("kokoro_v1", ⟨"kokoro_v1", 0, 0, 0⟩)], []⟩ : TTSRegistry).register
        ⟨"kokoro_v1", 0, 0, 0⟩ =
      (.ok (), ⟨[("kokoro_v1", ⟨"kokoro_v1", 0, 0, 0⟩)], []⟩) :=
  (register_idempotence_asymmetry
    ⟨[("kokoro_v1", ⟨"kokoro_v1", 0, 0, 0⟩)], []⟩
    ⟨"kokoro_v1", 0, 0, 0⟩).1 rfl

/-! ### Claim C3 -/

/-- C3 counterexample: `make_settings({"unknown_field": 1})` raises, but
the raised error is the pydantic `ValidationError` (a `ValueError`
subclass), not a `KeyError`-class error as the claim states. -/
theorem make_settings_unknown_key_not_keyerror :
    make_settings (fun _ => false) (some [("unknown_field", .num ⟨1, 0⟩)]) =
      .error ⟨.validationError, ["unknown_field"],
        "Extra inputs are not permitted"⟩ ∧
    PyExc.isKeyError .validationError = false := ⟨rfl, rfl⟩

/-- C3 (amended): a mapping with a key that is not a settings field makes
`make_settings` fail with the pydantic `ValidationError` (a
`ValueError`-class error, not `KeyError`-class), whose message is
`Extra inputs are not permitted` and whose location names the unknown
key. -/
theorem make_settings_unknown_key_error (fe : String → Bool)
    (d : List (String × JValue)) (k : String) (v : JValue)
    (hmem : (k, v) ∈ d) (hunk : kokoroFieldNames.contains k = false) :
    make_settings fe (some d) = .error (extraInputsError d) ∧
    (extraInputsError d).cls.isValueError = true ∧
    (extraInputsError d).cls.isKeyError = false ∧
    (extraInputsError d).msg = "Extra inputs are not permitted" ∧
    k ∈ (extraInputsError d).loc := by
  have hall : (d.all fun kv => kokoroFieldNames.contains kv.1) = false := by
    cases hb : d.all fun kv => kokoroFieldNames.contains kv.1 with
    | false => rfl
    | true =>
      have := List.all_eq_true.mp hb (k, v) hmem
      rw [hunk] at this
      exact absurd this (by simp)
  refine ⟨?_, rfl, rfl, rfl, ?_⟩
  · have hnc : ¬ ((d.all fun kv => kokoroFieldNames.contains kv.1) = true) := by
      rw [hall]
      exact fun hc => Bool.noConfusion hc
    show KokoroSettings.make fe d = .error (extraInputsError d)
    unfold KokoroSettings.make
    exact if_neg hnc
  · unfold extraInputsError
    exact List.mem_map.mpr
      ⟨(k, v), List.mem_filter.mpr ⟨hmem, by simpa using hunk⟩, rfl⟩

/-- C3 witness: the amended error at the scenario's concrete input. -/
theorem make_settings_unknown_key_error_witness :
    make_settings (fun _ => false) (some [("unknown_field", .num ⟨1, 0⟩)]) =
      .error (extraInputsError [("unknown_field", .num ⟨1, 0⟩)]) :=
  (make_settings_unknown_key_error (fun _ => false)
    [("unknown_field", .num ⟨1, 0⟩)] "unknown_field" (.num ⟨1, 0⟩)
    (by decide) (by decide)).1

/-! ### Claim C4 -/

/-- C4 counterexample: in `kokoro/settings.py` the `speed` field is
`Field(default=1.0, ge=0.1, le=2.0)`, so constructing settings with
`speed=1.5` succeeds — no validation error is raised, contradicting the
claimed range `(0.1, 1.0]`. -/
theorem speed_15_is_accepted :
    KokoroSettings.make (fun _ => false) [("speed", .num ⟨15, 1⟩)] =
      .ok ⟨"en_US", "af_heart", ⟨15, 1⟩, none, "hexgrad/Kokoro-82M",
        none, none, none⟩ := rfl

/-- C4 (amended): the current `speed` range is `[0.1, 2.0]`, so `1.5` is
accepted; a value outside the range (`2.5`) raises a validation error
mentioning `speed`; in the legacy `_kokoro/_settings.py` the range is
`[0.1, 1.0]` and there `speed=1.5` does raise a validation error
mentioning `speed`. -/
theorem speed_range_validation :
    KokoroSettings.make (fun _ => false) [("speed", .num ⟨15, 1⟩)] =
      .ok ⟨"en_US", "af_heart", ⟨15, 1⟩, none, "hexgrad/Kokoro-82M",
        none, none, none⟩ ∧
    KokoroSettings.make (fun _ => false) [("speed", .num ⟨25, 1⟩)] =
      .error ⟨.validationError, ["speed"],
        "Input should be less than or equal to 2"⟩ ∧
    (⟨.validationError, ["speed"],
      "Input should be less than or equal to 2"⟩ : PyError).mentions
        "speed" = true ∧
    legacy_speed_check ⟨15, 1⟩ =
      .error ⟨.validationError, ["speed"],
        "Input should be less than or equal to 1"⟩ ∧
    (⟨.validationError, ["speed"],
      "Input should be less than or equal to 1"⟩ : PyError).mentions
        "speed" = true := by
  refine ⟨rfl, rfl, ?_, rfl, ?_⟩ <;> decide

/-! ### Claim C6 -/

/-- C6: whenever `update_settings` with a correctly-typed new settings
value returns normally, the backend's `is_started` after the call equals
its value before the call. -/
theorem update_settings_transparency
    (alloc : KokoroSettings → Option KokoroSettings) (b : KokoroBackend)
    (ns : KokoroSettings) (b' : KokoroBackend)
    (h : KokoroBackend.update_settings alloc b (.kokoro ns) = .ok b') :
    b'.is_started = b.is_started := by
  unfold KokoroBackend.update_settings at h
  by_cases hs : b.is_started
  · rw [hs] at h
    simp only [if_true] at h
    unfold KokoroBackend.start at h
    simp only [KokoroBackend.is_started, KokoroBackend.stop] at h
    cases halloc : alloc ns with
    | some pl =>
      rw [halloc] at h
      simp at h
      rw [← h]
      simp [KokoroBackend.is_started]
      exact hs
    | none =>
      rw [halloc] at h
      simp at h
  · rw [Bool.of_not_eq_true hs] at h
    simp only [Bool.false_eq_true, if_false] at h
    cases h' : (⟨ns, b.pipeline⟩ : KokoroBackend) with
    | mk s0 p0 =>
      simp at h
      rw [← h]
      simp [KokoroBackend.is_started]

/-- C6 witness: updating a started backend with new settings keeps it
started. -/
theorem update_settings_transparency_witness :
    KokoroBackend.update_settings (fun s => some s)
        ⟨⟨"en_US", "af_heart", ⟨1, 0⟩, none, "hexgrad/Kokoro-82M", none,
          none, none⟩,
          some ⟨"en_US", "af_heart", ⟨1, 0⟩, none, "hexgrad/Kokoro-82M",
            none, none, none⟩⟩
        (.kokoro ⟨"en_US", "af_heart", ⟨15, 1⟩, none, "hexgrad/Kokoro-82M",
          none, none, none⟩) =
      .ok ⟨⟨"en_US", "af_heart", ⟨15, 1⟩, none, "hexgrad/Kokoro-82M", none,
        none, none⟩,
        some ⟨"en_US", "af_heart", ⟨15, 1⟩, none, "hexgrad/Kokoro-82M",
          none, none, none⟩⟩ ∧
    (⟨⟨"en_US", "af_heart", ⟨15, 1⟩, none, "hexgrad/Kokoro-82M", none, none,
      none⟩,
      some ⟨"en_US", "af_heart", ⟨15, 1⟩, none, "hexgrad/Kokoro-82M", none,
        none, none⟩⟩ : KokoroBackend).is_started =
    (⟨⟨"en_US", "af_heart", ⟨1, 0⟩, none, "hexgrad/Kokoro-82M", none, none,
      none⟩,
      some ⟨"en_US", "af_heart", ⟨1, 0⟩, none, "hexgrad/Kokoro-82M", none,
        none, none⟩⟩ : KokoroBackend).is_started :=
  ⟨rfl, update_settings_transparency (fun s => some s) _ _ _ rfl⟩

/-! ### Claim C9 -/

/-- C9: `convert` on a backend that is not started raises the
`RuntimeError`-class state error whose message mentions "not started",
and never returns (empty or any) output in that state. -/
theorem convert_requires_started
    (run : KokoroBackend → String → List (List Nat)) (b : KokoroBackend)
    (text : String) (h : b.is_started = false) :
    KokoroBackend.convert run b text =
      .error ⟨.runtimeError, [], "Backend is not started"⟩ ∧
    (⟨.runtimeError, [], "Backend is not started"⟩ : PyError).mentions
      "not started" = true ∧
    PyExc.isRuntimeError .runtimeError = true ∧
    ∀ out, KokoroBackend.convert run b text ≠ .ok out := by
  have h1 : KokoroBackend.convert run b text =
      .error ⟨.runtimeError, [], "Backend is not started"⟩ := by
    simp [KokoroBackend.convert, h]
  refine ⟨h1, by decide, rfl, ?_⟩
  intro out hco
  rw [h1] at hco
  exact Except.noConfusion hco

/-- C9 witness: `convert("hello")` before any `start()` raises the
not-started error. -/
theorem convert_requires_started_witness :
    KokoroBackend.convert (fun _ _ => [])
        ⟨⟨"en_US", "af_heart", ⟨1, 0⟩, none, "hexgrad/Kokoro-82M", none,
          none, none⟩, none⟩ "hello" =
      .error ⟨.runtimeError, [], "Backend is not started"⟩ :=
  (convert_requires_started (fun _ _ => [])
    ⟨⟨"en_US", "af_heart", ⟨1, 0⟩, none, "hexgrad/Kokoro-82M", none, none,
      none⟩, none⟩ "hello" rfl).1

end AquarionTTS
